import Mathlib

/-
Verification of the quantile forecasting engine of the CryptoPriceTracker
repository, as a shallow embedding in Lean 4.

The embedding translates the Python sources into executable Lean definitions:

* `backend/model/dataset.py`     → recency filter, RobustScaler fitting,
                                   windowing, `loadAux` (the per-asset loop of
                                   `load_dataset`);
* `backend/model/train_model.py` → `quantile_loss`, the training objective,
                                   and the callback/checkpoint behaviour of
                                   `main` (`stepEpoch`, `runFit`,
                                   `mainArtifact`);
* `backend/services/predictor.py`→ module-level artifact loading
                                   (`loadArtifacts`) and `predict_price`
                                   (`clampDaysAhead`, `repairCore`,
                                   `predictPrice`).

Real numbers are modelled by `ℚ` (all constants appearing in the code are
decimal literals, hence exact rationals).  The only genuinely irrational
quantity, `np.sqrt(days_ahead)`, is modelled by an abstract function
`Env.sqrtQ : ℕ → ℚ`; theorems instantiate it only at perfect squares, where
the float computation is also exact, and otherwise treat the scale factor as
an arbitrary rational parameter.
-/

namespace CryptoTracker

/-- `SEQ_LEN = 30`, the window length `L` (dataset.py, predictor.py). -/
def SEQ_LEN : ℕ := 30

/-- `LOOKBACK_DAYS = 730`, the recency window (dataset.py line 15). -/
def LOOKBACK_DAYS : ℕ := 730

/-! ### Per-asset scaler (sklearn `RobustScaler` with default options) -/

/-- Fitted state of a `RobustScaler`: `center_` (the median) and `scale_`
(the interquartile range, with sklearn's zero handling applied). -/
structure Scaler where
  center : ℚ
  scale : ℚ
deriving DecidableEq

/-- `RobustScaler.transform`: `(x - center_) / scale_`. -/
def Scaler.transform (s : Scaler) (x : ℚ) : ℚ := (x - s.center) / s.scale

/-- `RobustScaler.inverse_transform`: `y * scale_ + center_`. -/
def Scaler.inverseTransform (s : Scaler) (y : ℚ) : ℚ := y * s.scale + s.center

/-- `np.percentile` with the default linear interpolation, on an already
sorted list: position `(n-1)·p/100`, interpolating between the two
neighbouring order statistics.  Totalised to `0` on the empty list (the
code only fits scalers on histories of at least `SEQ_LEN + 1` rows). -/
def percentile (sorted : List ℚ) (p : ℚ) : ℚ :=
  match sorted with
  | [] => 0
  | x :: xs =>
    let n := (x :: xs).length
    let pos : ℚ := ((n : ℚ) - 1) * p / 100
    let i : ℕ := (Int.floor pos).toNat
    let lo := (x :: xs).getD i x
    let hi := (x :: xs).getD (i + 1) lo
    lo + (pos - Int.floor pos) * (hi - lo)

/-- `RobustScaler().fit(prices)` with the default quantile range (25, 75):
`center_` is the median, `scale_` the interquartile range; sklearn's
`_handle_zeros_in_scale` replaces a zero scale by `1`. -/
def fitRobustScaler (prices : List ℚ) : Scaler :=
  let sorted := prices.mergeSort (fun a b => decide (a ≤ b))
  let center := percentile sorted 50
  let iqr := percentile sorted 75 - percentile sorted 25
  { center := center, scale := if iqr = 0 then 1 else iqr }

/-! ### Quantile (pinball) loss, `train_model.py` lines 18–33 -/

/-- `quantile_loss(q)` from train_model.py / predictor.py:
`error = y_true - y_pred; reduce_mean(maximum(q*error, (q-1)*error))`. -/
def quantile_loss (q : ℚ) (yTrue yPred : List ℚ) : ℚ :=
  let error := List.zipWith (fun a b => a - b) yTrue yPred
  (error.map (fun e => max (q * e) ((q - 1) * e))).sum / (error.length : ℚ)

/-- The pinball loss at level `q`, written as the specification states it
(case split on which side of the prediction the truth falls). -/
def pinball (q y yhat : ℚ) : ℚ :=
  if yhat ≤ y then q * (y - yhat) else (1 - q) * (yhat - y)

/-- Mean pinball loss over paired samples (specification-side definition). -/
def pinballMean (q : ℚ) (yTrue yPred : List ℚ) : ℚ :=
  (List.zipWith (pinball q) yTrue yPred).sum /
    ((List.zipWith (pinball q) yTrue yPred).length : ℚ)

/-- The optimisation objective of `main` (train_model.py lines 197–209):
Keras sums the per-head losses `q10 ↦ quantile_loss 0.1`,
`q50 ↦ quantile_loss 0.5`, `q90 ↦ quantile_loss 0.9`, each head trained
against the same targets. -/
def trainingObjective (y p10 p50 p90 : List ℚ) : ℚ :=
  quantile_loss 0.1 y p10 + quantile_loss 0.5 y p50 + quantile_loss 0.9 y p90

/-! ### Dataset construction (`dataset.py`) -/

/-- One CSV row in a timestamped history: a timestamp (in days, the unit in
which `timedelta(days=730)` is expressed) and the `Close` price. -/
structure TSRow where
  t : ℚ
  close : ℚ
deriving DecidableEq

/-- A per-asset price history as read by `load_dataset`: either the CSV has
a `timestamp` column or it does not (the code branches on the column's
presence, dataset.py lines 51–58). -/
inductive History where
  | withTS (rows : List TSRow)
  | noTS (closes : List ℚ)

/-- `df['timestamp'].max()` over a row list (`0` on the empty list, which the
code never reaches because empty frames are skipped by the length guard). -/
def maxTimestamp (rows : List TSRow) : ℚ :=
  match rows.map TSRow.t with
  | [] => 0
  | x :: xs => xs.foldl max x

/-- The timestamped branch of the recency filter (dataset.py lines 51–55):
`cutoff = max(timestamp) - 730 days`, keep rows with `timestamp >= cutoff`,
then sort by timestamp. -/
def filterRecentRows (rows : List TSRow) : List TSRow :=
  let cutoff := maxTimestamp rows - (LOOKBACK_DAYS : ℚ)
  (rows.filter (fun r => decide (cutoff ≤ r.t))).mergeSort
    (fun a b => decide (a.t ≤ b.t))

/-- The whole recency filter of `load_dataset`, returning the `Close`
column of the filtered frame: timestamped histories are cut at 730 days
before their own latest timestamp; otherwise `df.tail(730)` keeps the last
730 rows (dataset.py lines 51–58). -/
def filterRecent : History → List ℚ
  | .withTS rows => (filterRecentRows rows).map TSRow.close
  | .noTS closes => closes.drop (closes.length - LOOKBACK_DAYS)

/-- A training example: `(window, target, coin index)`. -/
def Example : Type := List ℚ × ℚ × ℕ

instance : DecidableEq Example := by
  unfold Example
  infer_instance

/-- The sliding-window loop of `load_dataset` (dataset.py lines 80–83):
`for i in range(len(prices_scaled) - SEQ_LEN)`, window
`prices_scaled[i : i+SEQ_LEN]`, target `prices_scaled[i+SEQ_LEN]`. -/
def makeWindows (scaled : List ℚ) (idx : ℕ) : List Example :=
  (List.range (scaled.length - SEQ_LEN)).map
    (fun i => ((scaled.drop i).take SEQ_LEN, scaled.getD (i + SEQ_LEN) 0, idx))

/-- The per-asset loop of `load_dataset` (dataset.py lines 41–91): filter to
the recency window, skip the asset (`continue`) when fewer than
`SEQ_LEN + 1` rows remain, otherwise fit this asset's own `RobustScaler`,
register the asset under the next dense index and emit its sliding windows.
Returns the accumulated examples and the `coin_to_idx` encoder. -/
def loadAux (idx : ℕ) : List (String × History) → List Example × List (String × ℕ)
  | [] => ([], [])
  | (coin, h) :: rest =>
    let df := filterRecent h
    if df.length < SEQ_LEN + 1 then loadAux idx rest
    else
      let s := fitRobustScaler df
      let exs := makeWindows (df.map s.transform) idx
      let restOut := loadAux (idx + 1) rest
      (exs ++ restOut.1, (coin, idx) :: restOut.2)

/-- `load_dataset` over a directory listing of per-asset histories. -/
def loadDataset (assets : List (String × History)) :
    List Example × List (String × ℕ) :=
  loadAux 0 assets

/-! ### The inference service (`services/predictor.py`) -/

/-- A Python value passed as `days_ahead`: an `int`, or a non-`int` such as
a `float` (`isinstance(days_ahead, int)` is the discriminator the code
uses; floats carry their rational value). -/
inductive PyVal where
  | int (n : ℤ)
  | float (q : ℚ)
deriving DecidableEq

/-- predictor.py lines 88–92:
`if not isinstance(days_ahead, int) or days_ahead < 1: days_ahead = 1
elif days_ahead > 30: days_ahead = 30`. -/
def clampDaysAhead : PyVal → ℕ
  | .int n => if n < 1 then 1 else if 30 < n then 30 else n.toNat
  | .float _ => 1

/-- Round-half-to-even (Python's `round`) on an exact rational. -/
def roundHalfEven (x : ℚ) : ℤ :=
  let f := Int.floor x
  let r := x - f
  if r < 1 / 2 then f
  else if 1 / 2 < r then f + 1
  else if f % 2 = 0 then f else f + 1

/-- `round(x, 2)`: round to two decimal places. -/
def round2 (x : ℚ) : ℚ := (roundHalfEven (100 * x) : ℚ) / 100

/-- predictor.py lines 148–181: when `days_ahead > 1`, scale each quantile's
deviation from the current price by the (capped) `sqrt(days_ahead)` factor
`sf`, then run the bounds-checking block — positivity clamps, ordering
clamps against `q50`, and the ±50 % movement clamps — in source order.
When `days_ahead <= 1` the quantiles pass through untouched. -/
def repairCore (days : ℕ) (sf q10 q50 q90 c : ℚ) : ℚ × ℚ × ℚ :=
  if 1 < days then
    let q10 := c + (q10 - c) * sf
    let q50 := c + (q50 - c) * sf
    let q90 := c + (q90 - c) * sf
    let q10 := max 0.01 q10
    let q50 := max 0.01 q50
    let q90 := max 0.01 q90
    let q10 := min q10 (q50 * 0.95)
    let q90 := max q90 (q50 * 1.05)
    let q10 := max q10 (c * (1 - 0.5))
    let q90 := min q90 (c * (1 + 0.5))
    (q10, q50, q90)
  else (q10, q50, q90)

/-- The loaded Keras model: the size of its coin-embedding table and its
prediction function on a scaled window and an asset index (`none` models
`model.predict` raising, e.g. for an embedding index out of range). -/
structure ModelArt where
  embedCard : ℕ
  predict : List ℚ → ℕ → Option (ℚ × ℚ × ℚ)

/-- Dictionary lookup (`d[k]` guarded by `k in d`). -/
def lookup (k : String) : List (String × α) → Option α
  | [] => none
  | (a, b) :: t => if a = k then some b else lookup k t

/-- The module-level state of predictor.py: the three artifacts loaded
once at module load (each `none` after a failed load), the data directory
(`Close` column per asset, `none` when the CSV is missing or malformed),
and the abstract `np.sqrt`. -/
structure Env where
  model : Option ModelArt
  scaler : Option (List (String × Scaler))
  encoder : Option (List (String × ℕ))
  data : String → Option (List ℚ)
  sqrtQ : ℕ → ℚ

/-- predictor.py lines 25–56: the artifacts are loaded inside one `try`,
so any failure leaves all three `None`; no consistency check between the
model's embedding table and the encoder is performed. -/
def loadArtifacts (modelFile : Option ModelArt)
    (scalerFile : Option (List (String × Scaler)))
    (encoderFile : Option (List (String × ℕ))) :
    Option ModelArt × Option (List (String × Scaler)) ×
      Option (List (String × ℕ)) :=
  match modelFile, scalerFile, encoderFile with
  | some m, some s, some e => (some m, some s, some e)
  | _, _, _ => (none, none, none)

/-- predictor.py line 75: the only gate that refuses to serve — it checks
that the three artifacts are present, nothing else. -/
def modelLoadedGuard (env : Env) : Bool :=
  match env.model, env.scaler, env.encoder with
  | some _, some _, some _ => true
  | _, _, _ => false

/-- predictor.py lines 182–187: currency selection by asset name. -/
def currencyOf (asset : String) : String :=
  if asset = "gold" ∨ asset = "silver" ∨ asset = "crudeoil" then "USD"
  else if asset = "usdinr" ∨ asset = "gbpinr" ∨ asset = "eurinr" then
    "INR per unit"
  else "INR"

/-- The dictionary `predict_price` returns (predictor.py lines 189–198),
with every price rounded to two decimals. -/
structure Forecast where
  asset : String
  q10 : ℚ
  q50 : ℚ
  q90 : ℚ
  currentPrice : ℚ
  daysAhead : ℕ
  predictionRange : ℚ
  currency : String
deriving DecidableEq

/-- predictor.py lines 94–198, after the horizon has been clamped: load the
`Close` column, require at least `SEQ_LEN` points, scale with the asset's
own scaler, predict on the last `SEQ_LEN` scaled prices, inverse-transform
the three heads, then horizon-adjust and repair (`repairCore`) and build
the result dictionary.  `sf` is computed as in lines 151–155
(`min(sqrt(days_ahead), sqrt(30))`). -/
def predictWithDays (env : Env) (m : ModelArt) (sc : List (String × Scaler))
    (asset : String) (aid : ℕ) (days : ℕ) : Except String Forecast :=
  match env.data asset with
  | none => .error "No historical data"
  | some prices =>
    if prices.length < SEQ_LEN then .error "Not enough data"
    else
      match lookup asset sc with
      | none => .error "No scaler found"
      | some s =>
        let scaled := prices.map s.transform
        let X := scaled.drop (scaled.length - SEQ_LEN)
        match m.predict X aid with
        | none => .error "Prediction failed"
        | some (r10, r50, r90) =>
          let q10 := s.inverseTransform r10
          let q50 := s.inverseTransform r50
          let q90 := s.inverseTransform r90
          let c := prices.getLastD 0
          let sf := min (env.sqrtQ days) (env.sqrtQ 30)
          let rep := repairCore days sf q10 q50 q90 c
          .ok { asset := asset
                q10 := round2 rep.1
                q50 := round2 rep.2.1
                q90 := round2 rep.2.2
                currentPrice := round2 c
                daysAhead := days
                predictionRange := round2 (rep.2.2 - rep.1)
                currency := currencyOf asset }

/-- `predict_price` (predictor.py lines 59–198): artifact guard, asset
lookup in the encoder, horizon clamp, then the prediction pipeline. -/
def predictPrice (env : Env) (asset : String) (daysAhead : PyVal) :
    Except String Forecast :=
  match env.model, env.scaler, env.encoder with
  | some m, some sc, some enc =>
    match lookup asset enc with
    | none => .error "Asset not found in trained model"
    | some aid => predictWithDays env m sc asset aid (clampDaysAhead daysAhead)
  | _, _, _ => .error "Model not loaded"

/-! ### Training `main` (`train_model.py` lines 212–258)

The weights the network holds after each epoch are abstracted as values of
a type `W`; an epoch of `fit` is summarised by the weights it produced and
the logged `loss` and `val_loss`.  The three callbacks of lines 212–232 are
modelled with their Keras semantics: `EarlyStopping(monitor='loss',
patience=5, restore_best_weights=True)`, `ModelCheckpoint(MODEL_PATH,
monitor='val_loss', save_best_only=True)` (`ReduceLROnPlateau` only changes
the learning rate, which the abstraction does not track).  After `fit`,
line 257 runs `transformer_model.save(MODEL_PATH)` unconditionally. -/

/-- One epoch of `model.fit`: resulting weights and logged losses. -/
structure Epoch (W : Type) where
  w : W
  loss : ℚ
  valLoss : ℚ
deriving DecidableEq

/-- Callback state during `fit`: the content of `MODEL_PATH`
(`ModelCheckpoint`), its best monitored `val_loss`, `EarlyStopping`'s best
training loss with the weights captured there, its patience counter, the
stop flag, and the current in-memory weights. -/
structure TState (W : Type) where
  file : Option W
  bestVal : Option ℚ
  esBest : Option (ℚ × W)
  wait : ℕ
  stopped : Bool
  cur : W
deriving DecidableEq

/-- Strict-improvement test against an optional best (Keras initialises
the best to infinity, so the first epoch always improves). -/
def improved (best : Option ℚ) (x : ℚ) : Bool :=
  match best with
  | none => true
  | some b => decide (x < b)

/-- One epoch of `fit` with the two monitoring callbacks, in callback-list
order: training updates the weights, `EarlyStopping` (patience 5 on
`loss`, restoring its best weights when it stops) runs, then
`ModelCheckpoint` (on `val_loss`, `save_best_only`) writes `MODEL_PATH`.
Once stopped, remaining epochs do not run. -/
def stepEpoch (s : TState W) (e : Epoch W) : TState W :=
  if s.stopped then s
  else
    let cur := e.w
    let esImp := improved (s.esBest.map Prod.fst) e.loss
    let esBest := if esImp then some (e.loss, cur) else s.esBest
    let wait := if esImp then 0 else s.wait + 1
    let stopNow := decide (5 ≤ wait)
    let cur2 := if stopNow then ((esBest.map Prod.snd).getD cur) else cur
    let ckImp := improved s.bestVal e.valLoss
    let file := if ckImp then some cur2 else s.file
    let bestVal := if ckImp then some e.valLoss else s.bestVal
    { file := file, bestVal := bestVal, esBest := esBest, wait := wait,
      stopped := stopNow, cur := cur2 }

/-- The state after `model.fit` with initial weights `w0`. -/
def runFit (w0 : W) (epochs : List (Epoch W)) : TState W :=
  epochs.foldl stepEpoch
    { file := none, bestVal := none, esBest := none, wait := 0,
      stopped := false, cur := w0 }

/-- The content of `MODEL_PATH` after `main` returns: line 257 saves the
final in-memory model over whatever `ModelCheckpoint` left there. -/
def mainArtifact (w0 : W) (epochs : List (Epoch W)) : Option W :=
  some (runFit w0 epochs).cur

/-- Specification-side: the first epoch attaining the minimal `val_loss`
(ties keep the earlier epoch, matching the checkpoint's strict `<`). -/
def firstMinVal : List (Epoch W) → Option (Epoch W)
  | [] => none
  | e :: es =>
    match firstMinVal es with
    | none => some e
    | some m => if e.valLoss ≤ m.valLoss then some e else some m

/-- Specification-side: the weights of the best-validation-loss snapshot. -/
def bestValWeights (epochs : List (Epoch W)) : Option W :=
  (firstMinVal epochs).map Epoch.w

/-- Replace every epoch's logged `val_loss` according to `f`. -/
def setVal (f : Epoch W → ℚ) (e : Epoch W) : Epoch W :=
  { e with valLoss := f e }

/-! ### Concrete instances used to evaluate the pipeline -/

/-- The identity scaler (`center_ = 0`, `scale_ = 1`). -/
def scalerId : Scaler := ⟨0, 1⟩

/-- An environment whose artifacts failed to load (all `None`). -/
def envTrivial : Env :=
  { model := none, scaler := none, encoder := none,
    data := fun _ => none, sqrtQ := fun _ => 0 }

/-- A served environment whose model emits the unordered normalized
quantiles `(2, 1, 1/2)` for every input; `btc` has 30 days of history at
price 1. -/
def envC1 : Env :=
  { model := some ⟨1, fun _ _ => some (2, 1, 1 / 2)⟩
    scaler := some [("btc", scalerId)]
    encoder := some [("btc", 0)]
    data := fun a => if a = "btc" then some (List.replicate 30 1) else none
    sqrtQ := fun _ => 0 }

/-- A served environment for a 4-day horizon: the asset trades at 0.001 and
the model predicts no movement; `sqrtQ` is exact at the perfect square 4
(`min(2, sqrtQ 30) = 2 = sqrt 4`, the value the float code computes). -/
def envC1b : Env :=
  { model := some ⟨1, fun _ _ => some (1 / 1000, 1 / 1000, 1 / 1000)⟩
    scaler := some [("btc", scalerId)]
    encoder := some [("btc", 0)]
    data := fun a => if a = "btc" then some (List.replicate 30 (1 / 1000)) else none
    sqrtQ := fun n => if n = 4 then 2 else 6 }

/-- A served environment for a 4-day horizon where the model's median head
predicts 100 on an asset trading at 1. -/
def envC2 : Env :=
  { model := some ⟨1, fun _ _ => some (1, 100, 101)⟩
    scaler := some [("btc", scalerId)]
    encoder := some [("btc", 0)]
    data := fun a => if a = "btc" then some (List.replicate 30 1) else none
    sqrtQ := fun n => if n = 4 then 2 else 6 }

/-- The forecast `predict_price` returns in `envC1` at `days_ahead = 1`. -/
def forecastC1 : Forecast := ⟨"btc", 2, 1, 1 / 2, 1, 1, -(3 / 2), "INR"⟩

/-- The forecast `predict_price` returns in `envC1b` at `days_ahead = 4`. -/
def forecastC1b : Forecast := ⟨"btc", 1 / 100, 1 / 100, 0, 0, 4, -(1 / 100), "INR"⟩

/-- The forecast `predict_price` returns in `envC2` at `days_ahead = 4`. -/
def forecastC2 : Forecast := ⟨"btc", 1, 199, 3 / 2, 1, 4, 1 / 2, "INR"⟩

/-- A training run of two epochs: epoch 1 has the better validation loss,
epoch 2 the better training loss (weights are labelled 1 and 2). -/
def epochsC3 : List (Epoch ℕ) := [⟨1, 2, 1⟩, ⟨2, 1, 2⟩]

/-- A model whose embedding table has one row and whose predict succeeds
exactly on asset index 0 (an out-of-range embedding index raises). -/
def modelC4 : ModelArt := ⟨1, fun _ aid => if aid = 0 then some (1, 1, 1) else none⟩

/-- A two-asset encoder: cardinality 2, mismatching `modelC4`. -/
def encoderC4 : List (String × ℕ) := [("btc", 0), ("gold", 1)]

/-- Scaler store for the mismatch scenario. -/
def scalersC4 : List (String × Scaler) := [("btc", scalerId)]

/-- Data directory for the mismatch scenario. -/
def dataC4 : String → Option (List ℚ) :=
  fun a => if a = "btc" then some (List.replicate 30 1) else none

/-- The environment assembled from the mismatched pair. -/
def envC4 : Env :=
  { model := some modelC4, scaler := some scalersC4, encoder := some encoderC4,
    data := dataC4, sqrtQ := fun _ => 0 }

/-- The forecast served from the mismatched pair. -/
def forecastC4 : Forecast := ⟨"btc", 1, 1, 1, 1, 1, 0, "INR"⟩

/-! ### Helper lemmas -/

theorem max_eq_pinball (q y p : ℚ) :
    max (q * (y - p)) ((q - 1) * (y - p)) = pinball q y p := by
  set e := y - p with he
  unfold pinball
  rcases le_or_lt p y with hle | hlt
  · rw [if_pos hle]
    have he0 : 0 ≤ e := by rw [he]; linarith
    rw [max_eq_left (by nlinarith)]
  · rw [if_neg (not_le.mpr hlt)]
    have he0 : e ≤ 0 := by rw [he]; linarith
    rw [max_eq_right (by nlinarith)]
    ring

theorem zipWith_sub_map_pinball (q : ℚ) :
    ∀ yT yP : List ℚ,
      (List.zipWith (fun a b => a - b) yT yP).map
          (fun e => max (q * e) ((q - 1) * e)) =
        List.zipWith (pinball q) yT yP := by
  intro yT
  induction yT with
  | nil => intro yP; simp
  | cons y ys ih =>
    intro yP
    cases yP with
    | nil => simp
    | cons p ps =>
      simp only [List.zipWith_cons_cons, List.map_cons, ih ps,
        max_eq_pinball q y p]

theorem quantile_loss_eq_pinballMean (q : ℚ) (yT yP : List ℚ) :
    quantile_loss q yT yP = pinballMean q yT yP := by
  simp only [quantile_loss, pinballMean]
  rw [zipWith_sub_map_pinball q yT yP]
  simp [List.length_zipWith]

theorem getLast_getD_replicate (n : ℕ) (x d : ℚ) :
    (List.replicate (n + 1) x).getLast?.getD d = x := by
  induction n with
  | zero => rfl
  | succ k ih =>
    rw [List.replicate_succ, List.replicate_succ, List.getLast?_cons_cons,
      ← List.replicate_succ]
    exact ih

theorem fitRobustScaler_scale_ne_zero (prices : List ℚ) :
    (fitRobustScaler prices).scale ≠ 0 := by
  unfold fitRobustScaler
  dsimp only
  split
  · exact one_ne_zero
  · assumption

theorem scaler_roundtrip_point (s : Scaler) (hs : s.scale ≠ 0) (x : ℚ) :
    s.inverseTransform (s.transform x) = x := by
  unfold Scaler.transform Scaler.inverseTransform
  field_simp

/-! ### Claim theorems -/

/-- C7: for every fitted per-asset normalizer (a `RobustScaler` fitted on
that asset's own price history) and every price vector `x`,
inverse-transforming the transform of `x` returns `x` exactly over the
rationals.  The fitted scale statistic is never zero because sklearn's
zero handling replaces a zero interquartile range by 1, so the round
trip is unconditionally exact. -/
theorem scaler_roundtrip_exact (prices xs : List ℚ) :
    (xs.map (fitRobustScaler prices).transform).map
      (fitRobustScaler prices).inverseTransform = xs := by
  rw [List.map_map]
  have hs := fitRobustScaler_scale_ne_zero prices
  have hpt : ∀ x ∈ xs,
      ((fitRobustScaler prices).inverseTransform ∘
        (fitRobustScaler prices).transform) x = x := by
    intro x _
    exact scaler_roundtrip_point _ hs x
  rw [List.map_congr_left hpt]
  exact List.map_id' xs

/-- C8: `quantile_loss q` equals the mean pinball loss at level `q` (the
error being `y_true − y_pred`), and the optimisation objective compiled
in `main` is the sum of the three per-head pinball means at levels
0.1, 0.5 and 0.9. -/
theorem quantile_loss_is_pinball (q : ℚ) (yT yP : List ℚ) :
    quantile_loss q yT yP =
      (List.zipWith (pinball q) yT yP).sum /
        ((List.zipWith (pinball q) yT yP).length : ℚ) ∧
    ∀ y p10 p50 p90 : List ℚ,
      trainingObjective y p10 p50 p90 =
        pinballMean 0.1 y p10 + pinballMean 0.5 y p50 +
          pinballMean 0.9 y p90 := by
  constructor
  · rw [quantile_loss_eq_pinballMean q yT yP]
    rfl
  · intro y a b c
    unfold trainingObjective
    rw [quantile_loss_eq_pinballMean, quantile_loss_eq_pinballMean,
      quantile_loss_eq_pinballMean]

/-- C6: out-of-range horizons are clamped to the nearest bound: every
integer `days_ahead > 30` produces the same result as `days_ahead = 30`
(so `forecast(asset, 45)` behaves identically to `forecast(asset, 30)`),
and every integer `days_ahead < 1` behaves as `days_ahead = 1`. -/
theorem horizon_clamped_to_bounds (env : Env) (asset : String) (n : ℤ) :
    (30 < n →
      predictPrice env asset (.int n) = predictPrice env asset (.int 30)) ∧
    (n < 1 →
      predictPrice env asset (.int n) = predictPrice env asset (.int 1)) := by
  constructor
  · intro h
    have hc : clampDaysAhead (.int n) = clampDaysAhead (.int 30) := by
      simp only [clampDaysAhead]
      split_ifs <;> omega
    unfold predictPrice
    rw [hc]
  · intro h
    have hc : clampDaysAhead (.int n) = clampDaysAhead (.int 1) := by
      simp only [clampDaysAhead]
      split_ifs <;> omega
    unfold predictPrice
    rw [hc]

/-- Witness for C6 at the concrete horizon 45. -/
theorem horizon_clamped_witness :
    (30 : ℤ) < 45 ∧
      predictPrice envTrivial "nifty50" (.int 45) =
        predictPrice envTrivial "nifty50" (.int 30) :=
  ⟨by decide, (horizon_clamped_to_bounds envTrivial "nifty50" 45).1 (by decide)⟩

/-- C9: a non-`int` `days_ahead` (any float, e.g. 45.0 or 7.5) is replaced
by 1 — the whole prediction behaves as horizon 1 — while integers below 1
become 1 and only integers above 30 are clamped to 30. -/
theorem non_int_horizon_becomes_one (env : Env) (asset : String) (q : ℚ)
    (n : ℤ) :
    predictPrice env asset (.float q) = predictPrice env asset (.int 1) ∧
    (n < 1 → clampDaysAhead (.int n) = 1) ∧
    (30 < n → clampDaysAhead (.int n) = 30) := by
  refine ⟨?_, ?_, ?_⟩
  · have hc : clampDaysAhead (.float q) = clampDaysAhead (.int 1) := rfl
    unfold predictPrice
    rw [hc]
  · intro h
    simp only [clampDaysAhead]
    rw [if_pos h]
  · intro h
    simp only [clampDaysAhead]
    rw [if_neg (by omega : ¬ n < 1), if_pos h]

/-- Witness for C9 at the concrete float 45.0 and the integers 0 and 45. -/
theorem non_int_horizon_witness :
    predictPrice envTrivial "tcs" (.float 45) =
        predictPrice envTrivial "tcs" (.int 1) ∧
    (0 : ℤ) < 1 ∧ clampDaysAhead (.int 0) = 1 ∧
    (30 : ℤ) < 45 ∧ clampDaysAhead (.int 45) = 30 :=
  ⟨(non_int_horizon_becomes_one envTrivial "tcs" 45 0).1,
   by decide,
   (non_int_horizon_becomes_one envTrivial "tcs" 45 0).2.1 (by decide),
   by decide,
   (non_int_horizon_becomes_one envTrivial "tcs" 45 45).2.2 (by decide)⟩

/-- C10: with a timestamp column, the recency filter keeps exactly the rows
whose timestamp lies within 730 days of that asset's own latest timestamp
(the cutoff is relative to `df['timestamp'].max()`, not to the current
date); without one, the kept rows are exactly the last
`min 730 (length)` rows of the series (`df.tail(730)`). -/
theorem recency_filter_relative_to_latest (rows : List TSRow)
    (closes : List ℚ) :
    (∀ r, r ∈ filterRecentRows rows ↔
        (r ∈ rows ∧ maxTimestamp rows - r.t ≤ (LOOKBACK_DAYS : ℚ))) ∧
    (∃ pre, closes = pre ++ filterRecent (.noTS closes) ∧
        (filterRecent (.noTS closes)).length = min LOOKBACK_DAYS closes.length) := by
  constructor
  · intro r
    simp only [filterRecentRows, List.mem_mergeSort, List.mem_filter,
      decide_eq_true_eq]
    rw [sub_le_comm]
  · refine ⟨closes.take (closes.length - LOOKBACK_DAYS), ?_, ?_⟩
    · show closes = _ ++ closes.drop (closes.length - LOOKBACK_DAYS)
      rw [List.take_append_drop]
    · show (closes.drop (closes.length - LOOKBACK_DAYS)).length = _
      rw [List.length_drop]
      have h730 : LOOKBACK_DAYS = 730 := rfl
      omega

/-- C5: over a recency-filtered, normalized series of `n ≥ L + 1 = 31`
values, the dataset builder emits exactly `n − L` examples; the `i`-th has
a window of length exactly `L` holding the consecutive normalized values
at positions `i, …, i+L−1`, the immediately following value at position
`i+L` as target, and the asset's own index as tag.  In `load_dataset`, an
asset whose filtered history reaches `L + 1` rows contributes exactly
`n − L` examples to the accumulated set, while one with fewer rows is
skipped (`continue`) — the remaining assets are processed unchanged. -/
theorem dataset_window_count_and_shape :
    (∀ (norm : List ℚ) (idx : ℕ), SEQ_LEN + 1 ≤ norm.length →
      (makeWindows norm idx).length = norm.length - SEQ_LEN ∧
      ∀ i, i < norm.length - SEQ_LEN →
        ((makeWindows norm idx).getD i ([], 0, 0)).1.length = SEQ_LEN ∧
        (∀ j, j < SEQ_LEN →
          ((makeWindows norm idx).getD i ([], 0, 0)).1.getD j 0 =
            norm.getD (i + j) 0) ∧
        ((makeWindows norm idx).getD i ([], 0, 0)).2.1 =
          norm.getD (i + SEQ_LEN) 0 ∧
        ((makeWindows norm idx).getD i ([], 0, 0)).2.2 = idx) ∧
    (∀ (coin : String) (h : History) (rest : List (String × History))
        (idx : ℕ), SEQ_LEN + 1 ≤ (filterRecent h).length →
      (loadAux idx ((coin, h) :: rest)).1.length =
        ((filterRecent h).length - SEQ_LEN) +
          (loadAux (idx + 1) rest).1.length) ∧
    (∀ (coin : String) (h : History) (rest : List (String × History))
        (idx : ℕ), (filterRecent h).length < SEQ_LEN + 1 →
      loadAux idx ((coin, h) :: rest) = loadAux idx rest) := by
  refine ⟨?_, ?_, ?_⟩
  · intro norm idx hlen
    have hwlen : (makeWindows norm idx).length = norm.length - SEQ_LEN := by
      unfold makeWindows
      rw [List.length_map, List.length_range]
    refine ⟨hwlen, ?_⟩
    intro i hi
    have hget : (makeWindows norm idx).getD i ([], 0, 0) =
        ((norm.drop i).take SEQ_LEN, norm.getD (i + SEQ_LEN) 0, idx) := by
      unfold makeWindows
      rw [List.getD_eq_getElem?_getD, List.getElem?_map,
        List.getElem?_range hi]
      rfl
    rw [hget]
    have hbound : i + SEQ_LEN < norm.length := by omega
    refine ⟨?_, ?_, rfl, rfl⟩
    · show ((norm.drop i).take SEQ_LEN).length = SEQ_LEN
      rw [List.length_take, List.length_drop]
      omega
    · intro j hj
      show ((norm.drop i).take SEQ_LEN).getD j 0 = norm.getD (i + j) 0
      rw [List.getD_eq_getElem?_getD, List.getD_eq_getElem?_getD,
        List.getElem?_take_of_lt hj, List.getElem?_drop]
  · intro coin h rest idx hlen
    rw [loadAux.eq_def]
    dsimp only
    rw [if_neg (by omega)]
    show (makeWindows ((filterRecent h).map
        (fitRobustScaler (filterRecent h)).transform) idx ++
        (loadAux (idx + 1) rest).1).length = _
    rw [List.length_append]
    congr 1
    unfold makeWindows
    rw [List.length_map, List.length_range, List.length_map]
  · intro coin h rest idx hlen
    rw [loadAux.eq_def]
    dsimp only
    rw [if_pos hlen]

/-- Witness for C5: 31 constant rows produce exactly one example, and a
3-row asset is skipped without affecting the rest of the build. -/
theorem dataset_window_count_witness :
    SEQ_LEN + 1 ≤ (List.replicate 31 (5 : ℚ)).length ∧
    (makeWindows (List.replicate 31 (5 : ℚ)) 0).length =
      (List.replicate 31 (5 : ℚ)).length - SEQ_LEN ∧
    (filterRecent (.noTS [1, 2, 3])).length < SEQ_LEN + 1 ∧
    loadAux 0 [("btc", .noTS [1, 2, 3])] = loadAux 0 [] :=
  ⟨by decide,
   (dataset_window_count_and_shape.1 (List.replicate 31 (5 : ℚ)) 0
      (by decide)).1,
   by decide,
   dataset_window_count_and_shape.2.2 "btc" (.noTS [1, 2, 3]) [] 0 (by decide)⟩

/-- C1 counterexample: with `days_ahead = 1` the repair block is skipped
entirely, so `predict_price` returns the raw denormalized quantiles — here
unordered (`q10 = 2 > q50 = 1`); and even when the repair runs
(`days_ahead = 4`), the final movement clamps produce a returned `q90 = 0`,
below both `q50` and the 0.01 floor. -/
theorem predict_invariant_violations_cex :
    (predictPrice envC1 "btc" (.int 1) = .ok forecastC1 ∧
      ¬ (forecastC1.q10 ≤ forecastC1.q50)) ∧
    (predictPrice envC1b "btc" (.int 4) = .ok forecastC1b ∧
      ¬ ((0.01 : ℚ) ≤ forecastC1b.q90) ∧
      ¬ (forecastC1b.q50 ≤ forecastC1b.q90)) := by
  refine ⟨⟨?_, by norm_num [forecastC1]⟩,
    ⟨?_, by norm_num [forecastC1b], by norm_num [forecastC1b]⟩⟩
  · have hcl : clampDaysAhead (.int 1) = 1 := rfl
    have hlast : (List.replicate 30 (1 : ℚ)).getLast?.getD 0 = 1 :=
      getLast_getD_replicate 29 1 0
    have hcur : currencyOf "btc" = "INR" := rfl
    norm_num [predictPrice, predictWithDays, envC1, forecastC1, scalerId,
      lookup, hcl, SEQ_LEN, Scaler.transform,
      Scaler.inverseTransform, repairCore, round2, roundHalfEven,
      hcur, hlast]
  · have hcl : clampDaysAhead (.int 4) = 4 := rfl
    have hlast : (List.replicate 30 ((1 : ℚ) / 1000)).getLast?.getD 0 = 1 / 1000 :=
      getLast_getD_replicate 29 (1 / 1000) 0
    have hcur : currencyOf "btc" = "INR" := rfl
    norm_num [predictPrice, predictWithDays, envC1b, forecastC1b, scalerId,
      lookup, hcl, SEQ_LEN, Scaler.transform,
      Scaler.inverseTransform, repairCore, round2, roundHalfEven,
      hcur, hlast, max_def, min_def]

/-- C1 amended: the invariant-repair block runs only when the (clamped)
horizon exceeds one day — at `H = 1` the denormalized quantiles are
returned exactly as the model produced them — and when it does run, the
floor it unconditionally guarantees is on the median: the pre-rounding
`q50` is at least 0.01.  (The counterexample shows the full ordering and
the floors on `q10`/`q90` do not survive the final movement clamps.) -/
theorem repair_gate_and_median_floor (sf q10 q50 q90 c : ℚ) (d : ℕ) :
    repairCore 1 sf q10 q50 q90 c = (q10, q50, q90) ∧
    (2 ≤ d → (0.01 : ℚ) ≤ (repairCore d sf q10 q50 q90 c).2.1) := by
  constructor
  · unfold repairCore
    rw [if_neg (by omega)]
  · intro hd
    unfold repairCore
    rw [if_pos (by omega)]
    exact le_max_left _ _

/-- Witness for C1 (amended) at a concrete two-day horizon. -/
theorem repair_median_floor_witness :
    repairCore 1 7 3 2 1 9 = (3, 2, 1) ∧
    2 ≤ 2 ∧ (0.01 : ℚ) ≤ (repairCore 2 7 3 2 1 9).2.1 :=
  ⟨(repair_gate_and_median_floor 7 3 2 1 9 2).1, by norm_num,
   (repair_gate_and_median_floor 7 3 2 1 9 2).2 (by norm_num)⟩

/-- C2 counterexample: the returned median can deviate arbitrarily from the
current price — here the repair block runs (`days_ahead = 4`) yet the
forecast's `q50 = 199` deviates by 19800 % from `current_price = 1`,
because the ±50 % clamps are applied only to `q10` (from below) and `q90`
(from above), never to `q50`. -/
theorem predict_median_exceeds_cap_cex :
    predictPrice envC2 "btc" (.int 4) = .ok forecastC2 ∧
    ¬ (|forecastC2.q50 - forecastC2.currentPrice| /
        forecastC2.currentPrice ≤ 0.5) := by
  constructor
  · have hcl : clampDaysAhead (.int 4) = 4 := rfl
    have hlast : (List.replicate 30 (1 : ℚ)).getLast?.getD 0 = 1 :=
      getLast_getD_replicate 29 1 0
    have hcur : currencyOf "btc" = "INR" := rfl
    norm_num [predictPrice, predictWithDays, envC2, forecastC2, scalerId,
      lookup, hcl, SEQ_LEN, Scaler.transform,
      Scaler.inverseTransform, repairCore, round2, roundHalfEven,
      hcur, hlast, max_def, min_def]
  · norm_num [forecastC2]

/-- C2 amended: when the repair block runs (`days_ahead > 1`), the movement
cap is one-sided: the pre-rounding `q10` never falls below
`current_price · (1 − 0.5)` and the pre-rounding `q90` never exceeds
`current_price · (1 + 0.5)`; no bound constrains `q50`, the upward
deviation of `q10`, the downward deviation of `q90`, or any quantile when
`days_ahead = 1`. -/
theorem repair_one_sided_caps (sf q10 q50 q90 c : ℚ) (d : ℕ) (hd : 2 ≤ d) :
    c * (1 - 0.5) ≤ (repairCore d sf q10 q50 q90 c).1 ∧
    (repairCore d sf q10 q50 q90 c).2.2 ≤ c * (1 + 0.5) := by
  unfold repairCore
  rw [if_pos (by omega)]
  exact ⟨le_max_right _ _, min_le_right _ _⟩

/-- Witness for C2 (amended) at the concrete inputs of the scenario. -/
theorem repair_one_sided_caps_witness :
    2 ≤ 4 ∧
    (1 : ℚ) * (1 - 0.5) ≤ (repairCore 4 2 1 100 101 1).1 ∧
    (repairCore 4 2 1 100 101 1).2.2 ≤ (1 : ℚ) * (1 + 0.5) :=
  ⟨by norm_num,
   (repair_one_sided_caps 2 1 100 101 1 4 (by norm_num)).1,
   (repair_one_sided_caps 2 1 100 101 1 4 (by norm_num)).2⟩

theorem stepEpoch_core {W : Type} (f : Epoch W → ℚ) (s s' : TState W)
    (h1 : s.esBest = s'.esBest) (h2 : s.wait = s'.wait)
    (h3 : s.stopped = s'.stopped) (h4 : s.cur = s'.cur) (e : Epoch W) :
    (stepEpoch s (setVal f e)).esBest = (stepEpoch s' e).esBest ∧
    (stepEpoch s (setVal f e)).wait = (stepEpoch s' e).wait ∧
    (stepEpoch s (setVal f e)).stopped = (stepEpoch s' e).stopped ∧
    (stepEpoch s (setVal f e)).cur = (stepEpoch s' e).cur := by
  simp only [stepEpoch, setVal, h1, h2, h3, h4]
  by_cases hs : s'.stopped
  · simp [hs, h1, h2, h3, h4]
  · simp [hs]

theorem runFit_core {W : Type} (f : Epoch W → ℚ) :
    ∀ (es : List (Epoch W)) (s s' : TState W),
      s.esBest = s'.esBest → s.wait = s'.wait → s.stopped = s'.stopped →
      s.cur = s'.cur →
      (List.foldl stepEpoch s (es.map (setVal f))).cur =
        (List.foldl stepEpoch s' es).cur := by
  intro es
  induction es with
  | nil =>
    intro s s' _ _ _ h4
    simpa using h4
  | cons e rest ih =>
    intro s s' h1 h2 h3 h4
    simp only [List.map_cons, List.foldl_cons]
    obtain ⟨g1, g2, g3, g4⟩ := stepEpoch_core f s s' h1 h2 h3 h4 e
    exact ih _ _ g1 g2 g3 g4

/-- C3 counterexample: in a two-epoch run where epoch 1 attains the best
validation loss (weights 1) and epoch 2 the best training loss (weights 2),
`main` persists weights 2 at `MODEL_PATH` — the unconditional
`transformer_model.save` after `fit` overwrites the checkpoint — so the
persisted artifact differs from the best-validation-loss snapshot. -/
theorem final_save_overwrites_best_cex :
    mainArtifact 0 epochsC3 = some 2 ∧
    bestValWeights epochsC3 = some 1 ∧
    mainArtifact 0 epochsC3 ≠ bestValWeights epochsC3 := by
  refine ⟨by decide, by decide, by decide⟩

/-- C3 amended: the artifact persisted at `MODEL_PATH` when `main` returns
is the final in-memory model written by the unconditional save after
`fit`; it is invariant under arbitrary changes to the monitored validation
losses (which drive only the overwritten `ModelCheckpoint` file), so it is
not in general the best-validation-loss snapshot — that snapshot is only
held at `MODEL_PATH` transiently, between the checkpoint and the final
save. -/
theorem artifact_ignores_val_loss {W : Type} (w0 : W)
    (epochs : List (Epoch W)) (f : Epoch W → ℚ) :
    mainArtifact w0 (epochs.map (setVal f)) = mainArtifact w0 epochs := by
  unfold mainArtifact runFit
  rw [runFit_core f epochs _ _ rfl rfl rfl rfl]

/-- C4 counterexample: a model whose embedding table has 1 row paired with
a 2-asset encoder loads without any error — `loadArtifacts` performs no
cardinality check — the serving guard passes, and `predict_price` serves a
forecast from the mismatched pair. -/
theorem mismatched_pair_served_cex :
    loadArtifacts (some modelC4) (some scalersC4) (some encoderC4) =
      (some modelC4, some scalersC4, some encoderC4) ∧
    modelC4.embedCard ≠ encoderC4.length ∧
    predictPrice envC4 "btc" (.int 1) = .ok forecastC4 := by
  refine ⟨rfl, by decide, ?_⟩
  have hcl : clampDaysAhead (.int 1) = 1 := rfl
  have hlast : (List.replicate 30 (1 : ℚ)).getLast?.getD 0 = 1 :=
    getLast_getD_replicate 29 1 0
  have hcur : currencyOf "btc" = "INR" := rfl
  norm_num [predictPrice, predictWithDays, envC4, modelC4, scalersC4,
    encoderC4, dataC4, forecastC4, scalerId, lookup, hcl, SEQ_LEN,
    Scaler.transform, Scaler.inverseTransform, repairCore, round2,
    roundHalfEven, hcur, hlast]

/-- C4 amended: loading performs no consistency check between the model's
embedding cardinality and the encoder's asset count: any mismatched pair
is accepted as-is by the module-level loader (which is all-or-nothing only
on the presence of the three files), and the single guard that refuses to
serve predictions — the artifacts-are-loaded check — passes, so
predictions are served from the mismatched pair; no `ArtifactMismatch`
error exists anywhere in the code. -/
theorem load_accepts_mismatched_pair (m : ModelArt)
    (sc : List (String × Scaler)) (enc : List (String × ℕ))
    (d : String → Option (List ℚ)) (sq : ℕ → ℚ)
    (_hmis : m.embedCard ≠ enc.length) :
    loadArtifacts (some m) (some sc) (some enc) =
      (some m, some sc, some enc) ∧
    modelLoadedGuard ⟨some m, some sc, some enc, d, sq⟩ = true :=
  ⟨rfl, rfl⟩

/-- Witness for C4 (amended) at the concrete mismatched pair. -/
theorem load_accepts_mismatched_pair_witness :
    modelC4.embedCard ≠ encoderC4.length ∧
    loadArtifacts (some modelC4) (some scalersC4) (some encoderC4) =
      (some modelC4, some scalersC4, some encoderC4) ∧
    modelLoadedGuard ⟨some modelC4, some scalersC4, some encoderC4, dataC4,
      fun _ => 0⟩ = true :=
  ⟨by decide,
   (load_accepts_mismatched_pair modelC4 scalersC4 encoderC4 dataC4
      (fun _ => 0) (by decide)).1,
   (load_accepts_mismatched_pair modelC4 scalersC4 encoderC4 dataC4
      (fun _ => 0) (by decide)).2⟩

end CryptoTracker
